import Mathlib

/-!
Verification of the linux-stt concurrency core against its specification.

The development shallowly embeds the three core components of the
repository: the hotkey event multiplexer (`src/linux_stt/hotkey.py`),
the audio capture buffer (`src/linux_stt/audio.py`) and the recording
orchestration state machine (the `on_key_press` / `on_key_release`
closures of `run_daemon` in `src/linux_stt/main.py`), together with the
singleton transcriber holder (`src/linux_stt/transcribe.py`).
External effects (the sounddevice stream, the FunASR model, feedback and
output collaborators) are modelled by explicit oracle parameters; the
control flow and state updates are translated statement by statement
from the Python source.
-/

namespace LinuxStt

/-! ### Hotkey event multiplexer (src/linux_stt/hotkey.py) -/

/-- evdev event type for key events (`ecodes.EV_KEY`). -/
def EV_KEY : Nat := 1

/-- evdev key code for the left Control key (`ecodes.KEY_LEFTCTRL`). -/
def KEY_LEFTCTRL : Nat := 29

/-- evdev key code for the right Control key (`ecodes.KEY_RIGHTCTRL`). -/
def KEY_RIGHTCTRL : Nat := 97

/-- A raw evdev input event: type, key code and value
(0 = release, 1 = press, 2 = auto-repeat). -/
structure InputEvent where
  etype : Nat
  code : Nat
  value : Nat
deriving DecidableEq, Repr

/-- The two callbacks the listener can invoke on a key edge. -/
inductive Callback
  | press
  | release
deriving DecidableEq, Repr

/-- The default monitored key set of `HotkeyListener.__init__`
(`key_codes=None` defaults to left and right Control). -/
def defaultKeyCodes : List Nat := [KEY_LEFTCTRL, KEY_RIGHTCTRL]

/-- Processing of one raw event by the inner loop of
`HotkeyListener._listen_loop`: non-key events, events for unmonitored
codes and auto-repeat events (`value == 2`) are skipped; otherwise the
per-key boolean state is consulted, an unchanged state is skipped, and
on a change the state is updated and the matching callback is fired.
Returns the new key-state map and the callback fired, if any. -/
def listenStep (keyCodes : List Nat) (ks : Nat → Bool) (e : InputEvent) :
    (Nat → Bool) × Option Callback :=
  if e.etype ≠ EV_KEY then (ks, none)
  else if e.code ∉ keyCodes then (ks, none)
  else if e.value = 2 then (ks, none)
  else
    let isPress : Bool := e.value == 1
    if ks e.code = isPress then (ks, none)
    else (fun c => if c = e.code then isPress else ks c,
          some (if isPress then Callback.press else Callback.release))

/-- The monitoring loop of `HotkeyListener._listen_loop` over a sequence
of raw events, threading the key-state map and collecting the callbacks
fired in order. -/
def listenLoop (keyCodes : List Nat) :
    (Nat → Bool) → List InputEvent → (Nat → Bool) × List Callback
  | ks, [] => (ks, [])
  | ks, e :: rest =>
    let step := listenStep keyCodes ks e
    let restRun := listenLoop keyCodes step.1 rest
    (restRun.1, step.2.toList ++ restRun.2)

/-- Key states are reset to all-false at listener start
(`HotkeyListener.start`). -/
def initialKeyStates : Nat → Bool := fun _ => false

/-- The callback sequence produced by the listener on a raw event
sequence, starting from the all-released key state. -/
def callbacks (keyCodes : List Nat) (events : List InputEvent) : List Callback :=
  (listenLoop keyCodes initialKeyStates events).2

/-- A key event with the given code and value. -/
def keyEvent (code value : Nat) : InputEvent :=
  ⟨EV_KEY, code, value⟩

/-- `alternatingFrom pressed cbs` holds when, starting from the given
pressed level, the callback list strictly alternates: a `press` only
from the released level, a `release` only from the pressed level.
`alternatingFrom false cbs` therefore says `cbs` looks like
press, release, press, release, … -/
def alternatingFrom : Bool → List Callback → Bool
  | _, [] => true
  | false, Callback.press :: rest => alternatingFrom true rest
  | true, Callback.release :: rest => alternatingFrom false rest
  | _, _ => false

/-- Auto-repeat events are skipped by the loop without touching the key
state or firing a callback. -/
lemma listenStep_repeat (keyCodes : List Nat) (ks : Nat → Bool) (k : Nat) :
    listenStep keyCodes ks (keyEvent k 2) = (ks, none) := by
  simp [listenStep, keyEvent]

/-- A press event of a monitored key whose tracked level is released
updates the level and fires `onPress`. -/
lemma listenStep_press (keyCodes : List Nat) (ks : Nat → Bool) (k : Nat)
    (hk : k ∈ keyCodes) (hks : ks k = false) :
    listenStep keyCodes ks (keyEvent k 1)
      = (fun c => if c = k then true else ks c, some Callback.press) := by
  simp [listenStep, keyEvent, EV_KEY, hk, hks]

/-- A release event of a monitored key whose tracked level is pressed
updates the level and fires `onRelease`. -/
lemma listenStep_release (keyCodes : List Nat) (ks : Nat → Bool) (k : Nat)
    (hk : k ∈ keyCodes) (hks : ks k = true) :
    listenStep keyCodes ks (keyEvent k 0)
      = (fun c => if c = k then false else ks c, some Callback.release) := by
  simp [listenStep, keyEvent, EV_KEY, hk, hks]

lemma listenLoop_replicate_repeat (keyCodes : List Nat) (k n : Nat)
    (ks : Nat → Bool) (tail : List InputEvent) :
    listenLoop keyCodes ks (List.replicate n (keyEvent k 2) ++ tail)
      = listenLoop keyCodes ks tail := by
  induction n with
  | zero => rfl
  | succ m ih =>
    rw [List.replicate_succ, List.cons_append]
    simp only [listenLoop, listenStep_repeat]
    simpa using ih

/-- For an event sequence all of whose events carry one fixed key code,
the per-key duplicate suppression makes the fired callbacks alternate
with the tracked level of that key. -/
lemma listenLoop_single_code_alternating (keyCodes : List Nat) (k : Nat) :
    ∀ (events : List InputEvent) (ks : Nat → Bool),
      (∀ e ∈ events, e.code = k) →
      alternatingFrom (ks k) (listenLoop keyCodes ks events).2 = true := by
  intro events
  induction events with
  | nil => intro ks h; simp [listenLoop, alternatingFrom]
  | cons e rest ih =>
    intro ks h
    have hek : e.code = k := h e (List.mem_cons_self e rest)
    have hrest : ∀ e2 ∈ rest, e2.code = k := fun e2 he2 => h e2 (List.mem_cons_of_mem e he2)
    simp only [listenLoop, listenStep]
    by_cases h1 : e.etype ≠ EV_KEY
    · simp only [if_pos h1, Option.toList_none, List.nil_append]
      exact ih ks hrest
    · simp only [if_neg h1]
      by_cases h2 : e.code ∉ keyCodes
      · simp only [if_pos h2, Option.toList_none, List.nil_append]
        exact ih ks hrest
      · simp only [if_neg h2]
        by_cases h3 : e.value = 2
        · simp only [if_pos h3, Option.toList_none, List.nil_append]
          exact ih ks hrest
        · simp only [if_neg h3]
          by_cases h4 : ks e.code = (e.value == 1)
          · simp only [if_pos h4, Option.toList_none, List.nil_append]
            exact ih ks hrest
          · simp only [if_neg h4, Option.toList_some, List.singleton_append]
            have hupd : ∀ b : Bool,
                (fun c => if c = e.code then b else ks c) k = b := by
              intro b; simp [hek]
            have hks : ks k = !(e.value == 1) := by
              rw [hek] at h4
              cases hv : (e.value == 1) with
              | false => cases hkk : ks k with
                | false => rw [hv, hkk] at h4; exact absurd rfl h4
                | true => simp [hv, hkk]
              | true => cases hkk : ks k with
                | false => simp [hv, hkk]
                | true => rw [hv, hkk] at h4; exact absurd rfl h4
            have ihnext := ih (fun c => if c = e.code then (e.value == 1) else ks c)
              hrest
            rw [hupd] at ihnext
            cases hv : (e.value == 1) with
            | false =>
              rw [hks, hv]
              rw [hv] at ihnext
              simpa [alternatingFrom] using ihnext
            | true =>
              rw [hks, hv]
              rw [hv] at ihnext
              simpa [alternatingFrom] using ihnext

/-- C1 (counterexample): with the default monitored set of left and
right Control, pressing left Control and then right Control — two raw
press events with no release between them — makes the listener fire
`onPress` twice in a row, so press and release do not strictly
alternate. -/
theorem hotkey_default_double_press_not_alternating :
    callbacks defaultKeyCodes [keyEvent KEY_LEFTCTRL 1, keyEvent KEY_RIGHTCTRL 1]
        = [Callback.press, Callback.press] ∧
      alternatingFrom false
        (callbacks defaultKeyCodes
          [keyEvent KEY_LEFTCTRL 1, keyEvent KEY_RIGHTCTRL 1]) = false := by
  constructor <;> decide

/-- C1 (amended): the listener tracks each monitored key on its own, so
the alternation guarantee holds per key, not per combo: for every event
sequence whose events all concern a single key code, the fired callbacks
strictly alternate starting with `press` — one `onPress` per activation
and one `onRelease` per deactivation of that key. -/
theorem hotkey_single_key_callbacks_alternate (keyCodes : List Nat) (k : Nat)
    (events : List InputEvent) (h : ∀ e ∈ events, e.code = k) :
    alternatingFrom false (callbacks keyCodes events) = true := by
  have hmain := listenLoop_single_code_alternating keyCodes k events initialKeyStates h
  simpa [callbacks, initialKeyStates] using hmain

/-- Witness for the amended C1 theorem at a concrete press/release pair
of the left Control key. -/
theorem hotkey_single_key_callbacks_alternate_witness :
    (∀ e ∈ [keyEvent KEY_LEFTCTRL 1, keyEvent KEY_LEFTCTRL 0],
        e.code = KEY_LEFTCTRL) ∧
      alternatingFrom false
        (callbacks defaultKeyCodes
          [keyEvent KEY_LEFTCTRL 1, keyEvent KEY_LEFTCTRL 0]) = true :=
  ⟨by decide,
    hotkey_single_key_callbacks_alternate defaultKeyCodes KEY_LEFTCTRL
      [keyEvent KEY_LEFTCTRL 1, keyEvent KEY_LEFTCTRL 0] (by decide)⟩

/-- C5: auto-repeat events (`value == 2`) never trigger a callback: for
any monitored key, injecting any number of repeat events between one
press event and one release event yields exactly one `onPress` followed
by exactly one `onRelease`. -/
theorem hotkey_repeat_events_ignored (keyCodes : List Nat) (k : Nat)
    (hk : k ∈ keyCodes) (n : Nat) :
    callbacks keyCodes
        (keyEvent k 1 :: (List.replicate n (keyEvent k 2) ++ [keyEvent k 0]))
      = [Callback.press, Callback.release] := by
  simp only [callbacks, listenLoop,
    listenStep_press keyCodes initialKeyStates k hk rfl,
    listenLoop_replicate_repeat,
    listenStep_release keyCodes (fun c => if c = k then true else initialKeyStates c) k hk
      (by simp)]
  simp

/-- Witness for the C5 theorem: left Control with three injected repeat
events in the default monitored set. -/
theorem hotkey_repeat_events_ignored_witness :
    KEY_LEFTCTRL ∈ defaultKeyCodes ∧
      callbacks defaultKeyCodes
          (keyEvent KEY_LEFTCTRL 1 ::
            (List.replicate 3 (keyEvent KEY_LEFTCTRL 2) ++ [keyEvent KEY_LEFTCTRL 0]))
        = [Callback.press, Callback.release] :=
  ⟨by decide,
    hotkey_repeat_events_ignored defaultKeyCodes KEY_LEFTCTRL (by decide) 3⟩

/-! ### Recording orchestration state machine (src/linux_stt/main.py,
`run_daemon`, closures `on_key_press` and `on_key_release`) -/

/-- The shared recording state enum of `run_daemon`. -/
inductive RecordingState
  | idle
  | recording
  | processing
deriving DecidableEq, Repr

/-- Oracle for the external collaborators of one handler invocation:
whether `audio.start_recording()` succeeds, what
`audio.stop_recording()` returns (`none` models a raised exception,
`some buf` the drained sample buffer), what `transcriber.transcribe`
returns (`none` models a raised exception), and whether
`output.output` succeeds. -/
structure OrchEnv where
  startOk : Bool
  stopResult : Option (List Int)
  transcribeResult : Option String
  outputOk : Bool
deriving DecidableEq, Repr

/-- The minimum-duration threshold `int(0.1 * sample_rate)` of
`on_key_release` (exact for the integral sample rates the
configuration accepts). -/
def minSamples (sampleRate : Nat) : Nat := sampleRate / 10

/-- Result of one `on_key_press` invocation: the final value of the
shared state variable, the ordered list of assignments made to it, and
whether `audio.start_recording()` was called. -/
structure PressResult where
  state : RecordingState
  writes : List RecordingState
  startCalled : Bool
deriving DecidableEq, Repr

/-- The `on_key_press` closure of `run_daemon`: under the state lock,
ignore the edge unless the state is IDLE, else set RECORDING; then
start audio capture, reverting the state to IDLE if the start raises. -/
def on_key_press (env : OrchEnv) (s : RecordingState) : PressResult :=
  if s ≠ RecordingState.idle then
    ⟨s, [], false⟩
  else if env.startOk then
    ⟨RecordingState.recording, [RecordingState.recording], true⟩
  else
    ⟨RecordingState.idle, [RecordingState.recording, RecordingState.idle], true⟩

/-- Result of one `on_key_release` invocation: the final state, the
ordered assignments to the state variable, whether
`audio.stop_recording()` was called, the buffers passed to
`transcriber.transcribe` and the texts passed to `output.output`. -/
structure ReleaseResult where
  state : RecordingState
  writes : List RecordingState
  stopCalled : Bool
  transcribeCalls : List (List Int)
  outputCalls : List String
deriving DecidableEq, Repr

/-- The `on_key_release` closure of `run_daemon`: under the state lock,
ignore the edge unless the state is RECORDING, else set PROCESSING;
stop the capture and drain the buffer; if the sample count is below
`int(0.1 * sample_rate)`, set IDLE and return (the `finally` block then
assigns IDLE again); otherwise transcribe, and on a non-blank result
dispatch it to the output; every exception is caught, and the `finally`
block always assigns IDLE. -/
def on_key_release (sampleRate : Nat) (env : OrchEnv) (s : RecordingState) :
    ReleaseResult :=
  if s ≠ RecordingState.recording then
    ⟨s, [], false, [], []⟩
  else
    match env.stopResult with
    | none =>
      ⟨RecordingState.idle, [RecordingState.processing, RecordingState.idle],
        true, [], []⟩
    | some audioData =>
      if audioData.length < minSamples sampleRate then
        ⟨RecordingState.idle,
          [RecordingState.processing, RecordingState.idle, RecordingState.idle],
          true, [], []⟩
      else
        match env.transcribeResult with
        | none =>
          ⟨RecordingState.idle, [RecordingState.processing, RecordingState.idle],
            true, [audioData], []⟩
        | some text =>
          if text ≠ "" ∧ text.trim ≠ "" then
            ⟨RecordingState.idle, [RecordingState.processing, RecordingState.idle],
              true, [audioData], [text]⟩
          else
            ⟨RecordingState.idle, [RecordingState.processing, RecordingState.idle],
              true, [audioData], []⟩

/-- One callback invocation delivered to the orchestration state
machine, with its environment oracle. -/
inductive Invocation
  | press (env : OrchEnv)
  | release (env : OrchEnv)
deriving DecidableEq, Repr

/-- The assignments one invocation makes to the shared state variable. -/
def invWrites (sampleRate : Nat) (i : Invocation) (s : RecordingState) :
    List RecordingState :=
  match i with
  | Invocation.press env => (on_key_press env s).writes
  | Invocation.release env => (on_key_release sampleRate env s).writes

/-- The sequence of values the shared state variable takes (after its
initial value) along a run of handler invocations. -/
def traceFrom (sampleRate : Nat) : RecordingState → List Invocation →
    List RecordingState
  | _, [] => []
  | s, i :: rest =>
    let w := invWrites sampleRate i s
    w ++ traceFrom sampleRate (w.getLastD s) rest

/-- The transitions the specification allows:
IDLE→RECORDING, RECORDING→PROCESSING, PROCESSING→IDLE. -/
def specTransition (a b : RecordingState) : Prop :=
  (a = RecordingState.idle ∧ b = RecordingState.recording) ∨
  (a = RecordingState.recording ∧ b = RecordingState.processing) ∨
  (a = RecordingState.processing ∧ b = RecordingState.idle)

instance : DecidableRel specTransition := fun a b =>
  inferInstanceAs (Decidable
    ((a = RecordingState.idle ∧ b = RecordingState.recording) ∨
      (a = RecordingState.recording ∧ b = RecordingState.processing) ∨
      (a = RecordingState.processing ∧ b = RecordingState.idle)))

/-- The transitions the code actually performs: the three of the
specification plus the RECORDING→IDLE revert taken when
`audio.start_recording()` raises in `on_key_press`. -/
def codeTransition (a b : RecordingState) : Prop :=
  specTransition a b ∨
  (a = RecordingState.recording ∧ b = RecordingState.idle)

instance : DecidableRel codeTransition := fun a b =>
  inferInstanceAs (Decidable (specTransition a b ∨
    (a = RecordingState.recording ∧ b = RecordingState.idle)))

/-- Each consecutive pair along the trace either repeats a value or is
a `codeTransition`; stated for every start state so it can be proved by
straight induction. -/
lemma traceFrom_chain (sampleRate : Nat) (invs : List Invocation) :
    ∀ s : RecordingState,
      List.Chain (fun a b => a = b ∨ codeTransition a b) s
        (traceFrom sampleRate s invs) := by
  induction invs with
  | nil => intro s; simp [traceFrom]
  | cons i rest ih =>
    intro s
    cases i with
    | press env =>
      by_cases hs : s = RecordingState.idle
      · subst hs
        by_cases hok : env.startOk
        · simp only [traceFrom, invWrites, on_key_press, hok]
          simp only [ne_eq, not_true_eq_false, if_false, if_true, reduceIte]
          refine List.Chain.cons ?_ ?_
          · exact Or.inr (Or.inl (Or.inl ⟨rfl, rfl⟩))
          · simpa using ih RecordingState.recording
        · simp only [traceFrom, invWrites, on_key_press, hok]
          simp only [ne_eq, not_true_eq_false, if_false, reduceIte]
          refine List.Chain.cons (Or.inr (Or.inl (Or.inl ⟨rfl, rfl⟩))) ?_
          refine List.Chain.cons (Or.inr (Or.inr ⟨rfl, rfl⟩)) ?_
          simpa using ih RecordingState.idle
      · simp only [traceFrom, invWrites, on_key_press, if_pos hs]
        simp only [ne_eq, hs, not_false_eq_true, if_true, reduceIte, List.nil_append,
          List.getLastD_nil]
        exact ih s
    | release env =>
      by_cases hs : s = RecordingState.recording
      · subst hs
        cases hstop : env.stopResult with
        | none =>
          simp only [traceFrom, invWrites, on_key_release, hstop]
          simp only [ne_eq, not_true_eq_false, if_false, reduceIte]
          refine List.Chain.cons (Or.inr (Or.inl (Or.inr (Or.inl ⟨rfl, rfl⟩)))) ?_
          refine List.Chain.cons (Or.inr (Or.inl (Or.inr (Or.inr ⟨rfl, rfl⟩)))) ?_
          simpa using ih RecordingState.idle
        | some audioData =>
          by_cases hlen : audioData.length < minSamples sampleRate
          · simp only [traceFrom, invWrites, on_key_release, hstop, if_pos hlen]
            simp only [ne_eq, not_true_eq_false, if_false, reduceIte]
            refine List.Chain.cons (Or.inr (Or.inl (Or.inr (Or.inl ⟨rfl, rfl⟩)))) ?_
            refine List.Chain.cons (Or.inr (Or.inl (Or.inr (Or.inr ⟨rfl, rfl⟩)))) ?_
            refine List.Chain.cons (Or.inl rfl) ?_
            simpa using ih RecordingState.idle
          · cases htr : env.transcribeResult with
            | none =>
              simp only [traceFrom, invWrites, on_key_release, hstop, if_neg hlen, htr]
              simp only [ne_eq, not_true_eq_false, if_false, reduceIte]
              refine List.Chain.cons (Or.inr (Or.inl (Or.inr (Or.inl ⟨rfl, rfl⟩)))) ?_
              refine List.Chain.cons (Or.inr (Or.inl (Or.inr (Or.inr ⟨rfl, rfl⟩)))) ?_
              simpa using ih RecordingState.idle
            | some text =>
              by_cases htext : text ≠ "" ∧ text.trim ≠ ""
              · simp only [traceFrom, invWrites, on_key_release, hstop, if_neg hlen, htr,
                  if_pos htext]
                simp only [ne_eq, not_true_eq_false, if_false, reduceIte]
                refine List.Chain.cons (Or.inr (Or.inl (Or.inr (Or.inl ⟨rfl, rfl⟩)))) ?_
                refine List.Chain.cons (Or.inr (Or.inl (Or.inr (Or.inr ⟨rfl, rfl⟩)))) ?_
                simpa using ih RecordingState.idle
              · simp only [traceFrom, invWrites, on_key_release, hstop, if_neg hlen, htr,
                  if_neg htext]
                simp only [ne_eq, not_true_eq_false, if_false, reduceIte]
                refine List.Chain.cons (Or.inr (Or.inl (Or.inr (Or.inl ⟨rfl, rfl⟩)))) ?_
                refine List.Chain.cons (Or.inr (Or.inl (Or.inr (Or.inr ⟨rfl, rfl⟩)))) ?_
                simpa using ih RecordingState.idle
      · simp only [traceFrom, invWrites, on_key_release, if_pos hs]
        simp only [ne_eq, hs, not_false_eq_true, if_true, reduceIte, List.nil_append,
          List.getLastD_nil]
        exact ih s

/-- C2 (counterexample): when `audio.start_recording()` raises,
`on_key_press` moves the shared state RECORDING→IDLE directly, a
transition outside the claimed set: starting from IDLE, one press
invocation with a failing capture start produces the state trace
RECORDING, IDLE, whose second step is neither a repetition nor one of
IDLE→RECORDING, RECORDING→PROCESSING, PROCESSING→IDLE. -/
theorem orch_start_failure_breaks_transition_invariant :
    ¬ List.Chain (fun a b => a = b ∨ specTransition a b) RecordingState.idle
        (traceFrom 16000 RecordingState.idle
          [Invocation.press ⟨false, none, none, true⟩]) := by
  have htrace : traceFrom 16000 RecordingState.idle
      [Invocation.press ⟨false, none, none, true⟩]
        = [RecordingState.recording, RecordingState.idle] := rfl
  rw [htrace, List.chain_cons, List.chain_cons]
  simp [specTransition]

/-- C2 (amended): along every run of handler invocations from IDLE,
every change of the shared RecordingState variable is one of
IDLE→RECORDING, RECORDING→PROCESSING, PROCESSING→IDLE, or the
RECORDING→IDLE revert performed when capture start fails. -/
theorem orch_transitions_within_code_set (sampleRate : Nat)
    (invs : List Invocation) :
    List.Chain (fun a b => a = b ∨ codeTransition a b) RecordingState.idle
      (traceFrom sampleRate RecordingState.idle invs) :=
  traceFrom_chain sampleRate invs RecordingState.idle

/-- Number of assignments in a write trace that change the value into
IDLE, starting from the given previous value: the effective
PROCESSING→IDLE (or RECORDING→IDLE) restorations. -/
def idleTransitionCount : RecordingState → List RecordingState → Nat
  | _, [] => 0
  | prev, w :: rest =>
    (if prev ≠ RecordingState.idle ∧ w = RecordingState.idle then 1 else 0) +
      idleTransitionCount w rest

/-- C3 (counterexample): on the short-audio path the release handler
assigns IDLE twice — once in the minimum-duration branch and once more
in the `finally` block — so it does not set the state to IDLE exactly
once: from RECORDING with a drained buffer of 0 samples at 16 kHz the
assignment trace is PROCESSING, IDLE, IDLE. -/
theorem orch_release_short_audio_double_idle_write :
    (on_key_release 16000 ⟨true, some [], none, true⟩
        RecordingState.recording).writes
      = [RecordingState.processing, RecordingState.idle, RecordingState.idle] ∧
    ((on_key_release 16000 ⟨true, some [], none, true⟩
        RecordingState.recording).writes.count RecordingState.idle = 1 → False) := by
  constructor
  · rfl
  · decide

/-- C3 (amended): every invocation of the release handler that passes
its guard (state RECORDING) terminates with the state equal to IDLE on
every path — success, short-audio skip, audio-stop failure, or
transcription failure — assigns IDLE at least once, and performs the
value-changing transition into IDLE exactly once; on the short-audio
path the second IDLE assignment is a redundant rewrite of IDLE. -/
theorem orch_release_always_restores_idle (sampleRate : Nat) (env : OrchEnv) :
    (on_key_release sampleRate env RecordingState.recording).state
        = RecordingState.idle ∧
      1 ≤ (on_key_release sampleRate env
        RecordingState.recording).writes.count RecordingState.idle ∧
      idleTransitionCount RecordingState.recording
        (on_key_release sampleRate env RecordingState.recording).writes = 1 := by
  unfold on_key_release
  cases hstop : env.stopResult with
  | none => simp [idleTransitionCount]
  | some audioData =>
    by_cases hlen : audioData.length < minSamples sampleRate
    · simp [hlen, idleTransitionCount]
    · cases htr : env.transcribeResult with
      | none => simp [hlen, idleTransitionCount]
      | some text =>
        by_cases htext : text ≠ "" ∧ text.trim ≠ ""
        · simp [hlen, htext, idleTransitionCount]
        · simp [hlen, htext, idleTransitionCount]

/-- C4: a recording whose drained sample count is strictly below the
100 ms threshold `int(0.1 * sample_rate)` is dropped — the release
handler returns to IDLE without calling the transcription backend —
while a recording at or above the threshold is passed to the backend
exactly once, as the drained buffer itself. -/
theorem orch_minimum_duration_policy (sampleRate : Nat) (env : OrchEnv)
    (audioData : List Int) (hstop : env.stopResult = some audioData) :
    (on_key_release sampleRate env RecordingState.recording).transcribeCalls
        = (if audioData.length < minSamples sampleRate then [] else [audioData]) ∧
      (on_key_release sampleRate env RecordingState.recording).state
        = RecordingState.idle := by
  unfold on_key_release
  rw [hstop]
  by_cases hlen : audioData.length < minSamples sampleRate
  · simp [hlen]
  · cases htr : env.transcribeResult with
    | none => simp [hlen]
    | some text =>
      by_cases htext : text ≠ "" ∧ text.trim ≠ ""
      · simp [hlen, htext]
      · simp [hlen, htext]

/-- Witness for the C4 theorem: a 50 ms buffer (800 samples at 16 kHz)
is below the 1600-sample threshold and is dropped without a
transcription call. -/
theorem orch_minimum_duration_policy_witness :
    (on_key_release 16000 ⟨true, some (List.replicate 800 0), some "hi", true⟩
          RecordingState.recording).transcribeCalls = ([] : List (List Int)) ∧
      (on_key_release 16000 ⟨true, some (List.replicate 800 0), some "hi", true⟩
          RecordingState.recording).state = RecordingState.idle := by
  have h := orch_minimum_duration_policy 16000
    ⟨true, some (List.replicate 800 0), some "hi", true⟩ (List.replicate 800 0) rfl
  rw [if_pos (by norm_num [minSamples])] at h
  exact h

/-- C8: a press edge delivered while the state is not IDLE is ignored —
no state assignment, no capture start, state unchanged — and a release
edge delivered while the state is not RECORDING is ignored — no state
assignment, no capture stop, no transcription, no output. -/
theorem orch_guards_ignore_spurious_edges (sampleRate : Nat)
    (envP envR : OrchEnv) (s t : RecordingState)
    (hs : s ≠ RecordingState.idle) (ht : t ≠ RecordingState.recording) :
    on_key_press envP s = ⟨s, [], false⟩ ∧
      on_key_release sampleRate envR t = ⟨t, [], false, [], []⟩ := by
  constructor
  · unfold on_key_press; rw [if_pos hs]
  · unfold on_key_release; rw [if_pos ht]

/-- Witness for the C8 theorem: a press during PROCESSING and a release
during IDLE are both ignored. -/
theorem orch_guards_ignore_spurious_edges_witness :
    on_key_press ⟨true, none, none, true⟩ RecordingState.processing
        = ⟨RecordingState.processing, [], false⟩ ∧
      on_key_release 16000 ⟨true, none, none, true⟩ RecordingState.idle
        = ⟨RecordingState.idle, [], false, [], []⟩ :=
  orch_guards_ignore_spurious_edges 16000 ⟨true, none, none, true⟩
    ⟨true, none, none, true⟩ RecordingState.processing RecordingState.idle
    (by decide) (by decide)

/-! ### Audio capture buffer (src/linux_stt/audio.py) -/

/-- One entry of the device table returned by `sd.query_devices()`:
device name and number of input channels. -/
structure DeviceInfo where
  name : String
  maxInputChannels : Int
deriving DecidableEq, Repr

/-- The sounddevice environment: the full device table, indexed by
position as `sd.query_devices(index)` does. -/
structure SoundEnv where
  devices : List DeviceInfo
deriving DecidableEq, Repr

/-- `sd.query_devices(d)` for an integer selector: the table entry, or
`none` when the index is invalid (the `ValueError` branch). -/
def queryDevice (env : SoundEnv) (d : Nat) : Option DeviceInfo :=
  env.devices.get? d

/-- `AudioRecorder.list_devices()`: the indexed table entries that have
at least one input channel. -/
def list_devices (env : SoundEnv) : List (Nat × DeviceInfo) :=
  env.devices.enum.filter (fun p => 0 < p.2.maxInputChannels)

/-- Errors surfaced by the audio recorder: the two `ValueError`s of the
constructor, the `PortAudioError` carrying the queryable device list
raised by `_validate_device`, the stream-open failure, and the two
misuse `RuntimeError`s. -/
inductive AudioError
  | invalidSampleRate
  | invalidChannels
  | invalidDevice (validDevices : List (Nat × DeviceInfo))
  | streamFailure
  | alreadyRecording
  | notRecording
deriving DecidableEq, Repr

/-- The recorder state: configuration, the recording flag, the bounded
frame queue in arrival order (`_audio_queue`), the drained frame list
(`_audio_data`) and the open-stream flag. A frame is the sample list
one hardware callback copies. -/
structure AudioRecorder where
  sampleRate : Int
  channels : Int
  device : Option Nat
  recording : Bool
  audioQueue : List (List Int)
  audioData : List (List Int)
  streamOpen : Bool
deriving DecidableEq, Repr

/-- `AudioRecorder.__init__`: reject a non-positive sample rate, a
channel count other than 1 or 2, and a device selector that is unknown
or supports fewer input channels than requested (both device failures
carry the list of valid input devices); otherwise construct the idle
recorder. -/
def mkAudioRecorder (env : SoundEnv) (sampleRate channels : Int)
    (device : Option Nat) : Except AudioError AudioRecorder :=
  if sampleRate ≤ 0 then Except.error AudioError.invalidSampleRate
  else if channels ≠ 1 ∧ channels ≠ 2 then Except.error AudioError.invalidChannels
  else
    let recorder : AudioRecorder :=
      ⟨sampleRate, channels, device, false, [], [], false⟩
    match device with
    | none => Except.ok recorder
    | some d =>
      match queryDevice env d with
      | none => Except.error (AudioError.invalidDevice (list_devices env))
      | some info =>
        if info.maxInputChannels < channels then
          Except.error (AudioError.invalidDevice (list_devices env))
        else Except.ok recorder

/-- `AudioRecorder.start_recording()`: reject a double start before
touching any state; otherwise clear the stale buffers and drain the
queue, then open and start the input stream (`streamOk` models whether
the stream constructor raises). A raised stream failure leaves the
recording flag unset. -/
def start_recording (r : AudioRecorder) (streamOk : Bool) :
    AudioRecorder × Except AudioError Unit :=
  if r.recording then (r, Except.error AudioError.alreadyRecording)
  else
    let cleared := { r with audioData := [], audioQueue := [] }
    if streamOk then
      ({ cleared with streamOpen := true, recording := true }, Except.ok ())
    else (cleared, Except.error AudioError.streamFailure)

/-- The hardware callback `AudioRecorder._audio_callback`: copy the
frame and push it onto the queue. -/
def audio_callback (r : AudioRecorder) (frame : List Int) : AudioRecorder :=
  { r with audioQueue := r.audioQueue ++ [frame] }

/-- A sequence of hardware callbacks in arrival order. -/
def pushFrames (r : AudioRecorder) (frames : List (List Int)) : AudioRecorder :=
  frames.foldl audio_callback r

/-- `AudioRecorder.stop_recording()`: reject when no session is open
before touching any state; otherwise close the stream, drain every
queued frame into `_audio_data` in arrival order, and return their
concatenation (the empty array when nothing was captured). -/
def stop_recording (r : AudioRecorder) :
    AudioRecorder × Except AudioError (List Int) :=
  if ¬ r.recording then (r, Except.error AudioError.notRecording)
  else
    let data := r.audioData ++ r.audioQueue
    ({ r with
        streamOpen := false, recording := false,
        audioQueue := [], audioData := data },
      Except.ok (if data.isEmpty then [] else data.flatten))

/-- A callback only appends to the queue; every other field is kept. -/
lemma pushFrames_spec (frames : List (List Int)) :
    ∀ r : AudioRecorder,
      pushFrames r frames
        = { r with audioQueue := r.audioQueue ++ frames } := by
  induction frames with
  | nil => intro r; simp [pushFrames]
  | cons f rest ih =>
    intro r
    simp only [pushFrames, List.foldl_cons]
    have := ih (audio_callback r f)
    simp only [pushFrames] at this
    rw [this]
    simp [audio_callback]

/-- C6: frames pushed in arrival order during a session started on an
idle recorder are returned by `stop_recording` as their concatenation
in that same order, and a session with no frames returns the empty
zero-length buffer. -/
theorem audio_stop_returns_frames_in_order (r : AudioRecorder)
    (frames : List (List Int)) (hr : r.recording = false) :
    (stop_recording (pushFrames (start_recording r true).1 frames)).2
        = Except.ok frames.flatten ∧
      (stop_recording (pushFrames (start_recording r true).1 [])).2
        = Except.ok ([] : List Int) := by
  have hstart : (start_recording r true).1
      = { r with
          audioData := [], audioQueue := [],
          streamOpen := true, recording := true } := by
    simp [start_recording, hr]
  constructor
  · rw [hstart, pushFrames_spec]
    simp only [stop_recording]
    simp only [List.nil_append, not_true_eq_false, if_false, reduceIte]
    cases frames with
    | nil => simp
    | cons f rest => simp [List.isEmpty, List.flatten]
  · rw [hstart, pushFrames_spec]
    simp [stop_recording]

/-- Witness for the C6 theorem: three concrete frames pushed on a fresh
recorder come back as their concatenation, and no frames come back as
the empty buffer. -/
theorem audio_stop_returns_frames_in_order_witness :
    (stop_recording (pushFrames
          (start_recording ⟨16000, 1, none, false, [], [], false⟩ true).1
          [[1, 2], [3], [4, 5, 6]])).2
        = Except.ok ([1, 2, 3, 4, 5, 6] : List Int) ∧
      (stop_recording (pushFrames
          (start_recording ⟨16000, 1, none, false, [], [], false⟩ true).1 [])).2
        = Except.ok ([] : List Int) := by
  have h := audio_stop_returns_frames_in_order
    ⟨16000, 1, none, false, [], [], false⟩ [[1, 2], [3], [4, 5, 6]] rfl
  simpa using h

/-- C7: `stop_recording` on a recorder with no open session fails with
`NotRecording`, `start_recording` on a recorder with an open session
fails with `AlreadyRecording`, and in both misuse cases the recorder
state is returned unchanged. -/
theorem audio_misuse_rejected (r q : AudioRecorder) (streamOk : Bool)
    (hr : r.recording = false) (hq : q.recording = true) :
    stop_recording r = (r, Except.error AudioError.notRecording) ∧
      start_recording q streamOk = (q, Except.error AudioError.alreadyRecording) := by
  constructor
  · simp [stop_recording, hr]
  · simp [start_recording, hq]

/-- Witness for the C7 theorem at concrete idle and recording
recorders. -/
theorem audio_misuse_rejected_witness :
    stop_recording ⟨16000, 1, none, false, [], [], false⟩
        = (⟨16000, 1, none, false, [], [], false⟩,
            Except.error AudioError.notRecording) ∧
      start_recording ⟨16000, 1, none, true, [[7]], [], true⟩ true
        = (⟨16000, 1, none, true, [[7]], [], true⟩,
            Except.error AudioError.alreadyRecording) :=
  audio_misuse_rejected ⟨16000, 1, none, false, [], [], false⟩
    ⟨16000, 1, none, true, [[7]], [], true⟩ true rfl rfl

/-- Whether a device selector is acceptable for the requested channel
count: absent, or present in the table with enough input channels. -/
def deviceSupports (env : SoundEnv) (channels : Int) : Option Nat → Bool
  | none => true
  | some d =>
    match queryDevice env d with
    | none => false
    | some info => channels ≤ info.maxInputChannels

/-- C9: construction of the recorder validates eagerly — it succeeds
exactly when the sample rate is positive, the channel count is 1 or 2,
and any given device selector supports the requested channel count —
and whenever a well-formed configuration fails only because of the
device selector, the error carries the queryable list of valid input
devices. -/
theorem audio_construction_validates_eagerly (env : SoundEnv)
    (sampleRate channels : Int) (device : Option Nat) :
    ((mkAudioRecorder env sampleRate channels device).isOk
        ↔ (0 < sampleRate ∧ (channels = 1 ∨ channels = 2) ∧
            deviceSupports env channels device = true)) ∧
      (0 < sampleRate → (channels = 1 ∨ channels = 2) →
        deviceSupports env channels device = false →
        mkAudioRecorder env sampleRate channels device
          = Except.error (AudioError.invalidDevice (list_devices env))) := by
  unfold mkAudioRecorder deviceSupports
  by_cases hsr : sampleRate ≤ 0
  · have : ¬ 0 < sampleRate := by omega
    simp [hsr, this, Except.isOk, Except.toBool]
  · have hpos : 0 < sampleRate := by omega
    by_cases hch : channels ≠ 1 ∧ channels ≠ 2
    · have : ¬ (channels = 1 ∨ channels = 2) := by tauto
      simp [hsr, hch, this, Except.isOk, Except.toBool]
    · have hch2 : channels = 1 ∨ channels = 2 := by tauto
      cases device with
      | none => simp [hsr, hch, hpos, hch2, Except.isOk, Except.toBool]
      | some d =>
        cases hq : queryDevice env d with
        | none => simp [hsr, hch, hpos, hch2, hq, Except.isOk, Except.toBool]
        | some info =>
          by_cases hsup : info.maxInputChannels < channels
          · have : ¬ channels ≤ info.maxInputChannels := by omega
            simp [hsr, hch, hpos, hch2, hq, hsup, this, Except.isOk, Except.toBool]
          · have : channels ≤ info.maxInputChannels := by omega
            simp [hsr, hch, hpos, hch2, hq, hsup, this, Except.isOk, Except.toBool]

/-- Witness for the C9 theorem on a one-entry device table whose only
device has no input channels: requesting it with one channel fails with
the device error carrying the valid-device list. -/
theorem audio_construction_validates_eagerly_witness :
    mkAudioRecorder ⟨[⟨"hdmi-out", 0⟩]⟩ 16000 1 (some 0)
        = Except.error (AudioError.invalidDevice
            (list_devices ⟨[⟨"hdmi-out", 0⟩]⟩)) :=
  (audio_construction_validates_eagerly ⟨[⟨"hdmi-out", 0⟩]⟩ 16000 1 (some 0)).2
    (by decide) (by decide) (by decide)

/-! ### Singleton transcriber holder (src/linux_stt/transcribe.py) -/

/-- The `ValueError`s `_resolve_device` can raise. -/
inductive TranscriberError
  | cudaUnavailable
  | torchMissing
  | invalidDeviceString
deriving DecidableEq, Repr

/-- `Transcriber._resolve_device`: map `auto` / `cpu` / `cuda` to the
concrete inference device given whether PyTorch is importable and
whether CUDA is available; a forced `cuda` without support raises. -/
def resolveDevice (torchAvail cudaAvail : Bool) (device : String) :
    Except TranscriberError String :=
  if device = "auto" then
    if torchAvail then
      if cudaAvail then Except.ok "cuda" else Except.ok "cpu"
    else Except.ok "cpu"
  else if device = "cuda" then
    if torchAvail then
      if cudaAvail then Except.ok "cuda"
      else Except.error TranscriberError.cudaUnavailable
    else Except.error TranscriberError.torchMissing
  else if device = "cpu" then Except.ok "cpu"
  else Except.error TranscriberError.invalidDeviceString

/-- The class-level state shared by every `Transcriber` mention: the
cached singleton instance (modelled by a numeric object id allocated
from `nextId`), the configured model path and device, whether
`load_model` has succeeded (`_is_loaded`) and whether a model object is
held (`_model is not None`). -/
structure TranscriberClass where
  instanceId : Option Nat
  nextId : Nat
  modelPath : Option String
  device : Option String
  isLoaded : Bool
  modelPresent : Bool
deriving DecidableEq, Repr

/-- `Transcriber.__new__`: allocate the instance on the first call and
cache it; every later call returns the cached instance. -/
def transcriberNew (s : TranscriberClass) : TranscriberClass × Nat :=
  match s.instanceId with
  | some i => (s, i)
  | none =>
    ({ s with instanceId := some s.nextId, nextId := s.nextId + 1 }, s.nextId)

/-- `Transcriber.__init__`: skip all initialisation when the model is
already loaded; otherwise record the model path (defaulting to
`iic/SenseVoiceSmall`) and the resolved device. -/
def transcriberInit (s : TranscriberClass) (modelPath : Option String)
    (device : String) (torchAvail cudaAvail : Bool) :
    Except TranscriberError TranscriberClass :=
  if s.isLoaded ∧ s.modelPresent then Except.ok s
  else
    match resolveDevice torchAvail cudaAvail device with
    | Except.error e => Except.error e
    | Except.ok dev =>
      Except.ok { s with
        modelPath := some (modelPath.getD "iic/SenseVoiceSmall"),
        device := some dev }

/-- A `Transcriber(...)` expression: `__new__` then `__init__` on the
returned instance. -/
def transcriberConstruct (s : TranscriberClass) (modelPath : Option String)
    (device : String) (torchAvail cudaAvail : Bool) :
    Except TranscriberError (TranscriberClass × Nat) :=
  let allocated := transcriberNew s
  match transcriberInit allocated.1 modelPath device torchAvail cudaAvail with
  | Except.error e => Except.error e
  | Except.ok s2 => Except.ok (s2, allocated.2)

/-- C10: `Transcriber` is a process-wide singleton — two successive
`__new__` calls from any class state hand out the same object — and
once the model is loaded, a later constructor call with any model path
or device arguments returns the cached instance with the class state,
and hence the existing configuration, completely unchanged. -/
theorem transcriber_singleton (s t : TranscriberClass) (i : Nat)
    (modelPath : Option String) (device : String) (torchAvail cudaAvail : Bool)
    (hinst : s.instanceId = some i) (hl : s.isLoaded = true)
    (hm : s.modelPresent = true) :
    (transcriberNew (transcriberNew t).1).2 = (transcriberNew t).2 ∧
      transcriberConstruct s modelPath device torchAvail cudaAvail
        = Except.ok (s, i) := by
  constructor
  · cases ht : t.instanceId with
    | some j => simp [transcriberNew, ht]
    | none => simp [transcriberNew, ht]
  · simp [transcriberConstruct, transcriberNew, transcriberInit, hinst, hl, hm]

/-- Witness for the C10 theorem: a loaded singleton state given fresh,
different constructor arguments is returned unchanged. -/
theorem transcriber_singleton_witness :
    (transcriberNew (transcriberNew
          (⟨none, 0, none, none, false, false⟩ : TranscriberClass)).1).2
        = (transcriberNew (⟨none, 0, none, none, false, false⟩ : TranscriberClass)).2 ∧
      transcriberConstruct
          (⟨some 0, 1, some "iic/SenseVoiceSmall", some "cpu", true, true⟩ :
            TranscriberClass)
          (some "other-model") "cuda" true true
        = Except.ok
            (⟨some 0, 1, some "iic/SenseVoiceSmall", some "cpu", true, true⟩, 0) :=
  transcriber_singleton
    ⟨some 0, 1, some "iic/SenseVoiceSmall", some "cpu", true, true⟩
    ⟨none, 0, none, none, false, false⟩ 0
    (some "other-model") "cuda" true true rfl rfl rfl

end LinuxStt
